import Mathlib

/-!
# Covenant contract service: shallow embedding

A shallow embedding of the core logic of the covenant service
(`src/server/node/covenant.js`): contract validation, the contract /
sign-step / update / delete HTTP handlers, the user endpoints, and the
BDO (remote object store) persistence layer, together with theorems
about the claims of the specification.

Modelling conventions:
* JavaScript objects used as maps (`step.signatures`) become association
  lists `List (String × α)` with first-occurrence lookup and
  replace-or-append insertion (JS objects have unique keys; all maps here
  are built through `setAssoc`, which preserves that).
* A JS value that may be `undefined`/`null` becomes `Option`; in
  signature maps the JS distinction between an *absent* key (`undefined`)
  and a key mapped to `null` matters, so the value type there is
  `Option SignatureRecord` and an absent key is `lookupAssoc = none`
  while a `null` entry is `lookupAssoc = some none`.
* `sessionless.verifySignature` is an abstract parameter
  `Verify : signature → message → pubKey → Bool`.
* Wall-clock times (`new Date().getTime() + ''`) and freshly generated
  UUIDs / keypairs are passed in as explicit arguments.
* Falsy-string checks (`if (!signature)`) become `= ""` tests on `String`
  fields (the handlers read these fields from the JSON body as strings).
-/

/-- Association-list lookup: first occurrence wins (JS object key lookup). -/
def lookupAssoc {α : Type} : List (String × α) → String → Option α
  | [], _ => none
  | (k', v) :: rest, k => if k' = k then some v else lookupAssoc rest k

/-- Association-list insertion: replace the first occurrence in place, or
append at the end when the key is absent (JS `obj[k] = v`). -/
def setAssoc {α : Type} : List (String × α) → String → α → List (String × α)
  | [], k, v => [(k, v)]
  | (k', v') :: rest, k, v =>
      if k' = k then (k, v) :: rest else (k', v') :: setAssoc rest k v

/-- A signature record installed on a step
(`step.signatures[auth.pubKey] = {...}` in the sign handler). -/
structure SignatureRecord where
  signature : String
  timestamp : String
  pubKey : String
  message : String
  signedAt : String
deriving DecidableEq, Repr

/-- A step's signature map: participant public key to `null`
(`some none` here) or a `SignatureRecord`.  An absent key (JS
`undefined`) is a missing entry of the list. -/
abbrev SigMap := List (String × Option SignatureRecord)

/-- One contract step. -/
structure Step where
  id : String
  description : String
  magicSpell : Option String
  order : Nat
  signatures : SigMap
  completed : Bool
  completedAt : Option String
  createdAt : String
deriving DecidableEq, Repr

/-- A contract document as built by the create handler and mutated by the
other handlers and by `saveContractToBDO`.  Fields that the JS object
only acquires later (`pubKey`, `bdoUuid`, `svgContent`, `scgBdoUuid`)
are `Option`s that start out `none`. -/
structure Contract where
  uuid : String
  title : String
  description : String
  participants : List String
  steps : List Step
  productUuid : Option String
  bdoLocation : Option String
  createdAt : String
  updatedAt : String
  status : String
  creator : String
  pubKey : Option String
  bdoUuid : Option String
  svgContent : Option String
  scgBdoUuid : Option String
deriving DecidableEq, Repr

/-- Abstract secp256k1 verification:
`verify signature message pubKey` (sessionless.verifySignature). -/
abbrev Verify := String → String → String → Bool

/-- Per-step validation loop of `validateContract`: steps are numbered
from 1 in the error message. -/
def validateSteps : List Step → Nat → Option String
  | [], _ => none
  | s :: rest, i =>
      if s.description = "" then
        some ("Step " ++ toString i ++ " must have a description")
      else validateSteps rest (i + 1)

/-- `validateContract` from covenant.js: title non-empty, at least two
participants, at least one step, every step has a non-empty description.
Returns `none` when the contract is valid, `some errorMessage` otherwise. -/
def validateContract (c : Contract) : Option String :=
  if c.title = "" then some "Contract must have a title"
  else if c.participants.length < 2 then
    some "Contract must have at least 2 participants"
  else if c.steps.length = 0 then
    some "Contract must have at least one step"
  else validateSteps c.steps 1

theorem validateSteps_eq_none (l : List Step) (i : Nat) :
    validateSteps l i = none ↔ ∀ s ∈ l, s.description ≠ "" := by
  induction l generalizing i with
  | nil => simp [validateSteps]
  | cons s rest ih =>
      by_cases h : s.description = "" <;>
        simp [validateSteps, h, ih]

/-- A concrete, otherwise well-formed contract with a duplicated
participant entry and an empty-string participant entry. -/
def dupParticipantContract : Contract :=
  { uuid := "c-dup", title := "t", description := "",
    participants := ["a", "a", ""],
    steps := [{ id := "s1", description := "d", magicSpell := none,
                order := 0, signatures := [], completed := false,
                completedAt := none, createdAt := "0" }],
    productUuid := none, bdoLocation := none,
    createdAt := "0", updatedAt := "0", status := "active",
    creator := "a", pubKey := none, bdoUuid := none,
    svgContent := none, scgBdoUuid := none }

/-- C6 counterexample: `validateContract` accepts (returns `none` for) a
contract whose participant list contains a duplicate entry and an empty
string, so validation does not reject duplicates or empty participant
strings. -/
theorem validateContract_accepts_dup_and_empty :
    validateContract dupParticipantContract = none := by decide

/-- C6 (amended): validation passes exactly when the title is non-empty,
there are at least 2 participants, at least one step, and every step has
a non-empty description; the participant entries themselves are not
inspected (duplicates and empty strings are accepted). -/
theorem validateContract_characterization (c : Contract) :
    validateContract c = none ↔
      (c.title ≠ "" ∧ 2 ≤ c.participants.length ∧ c.steps ≠ [] ∧
        ∀ s ∈ c.steps, s.description ≠ "") := by
  constructor
  · intro h
    unfold validateContract at h
    split_ifs at h with ht hp hs
    refine ⟨ht, by omega, ?_, (validateSteps_eq_none _ _).mp h⟩
    intro hnil; rw [hnil] at hs; simp at hs
  · rintro ⟨ht, hp, hs, hd⟩
    unfold validateContract
    rw [if_neg ht, if_neg (by omega),
      if_neg (by simpa [List.length_eq_zero] using hs)]
    exact (validateSteps_eq_none _ _).mpr hd

/-! ## Authentication gate and the sign-step handler -/

/-- Outcome of the `verifySessionlessAuth` middleware. -/
inductive AuthCheck where
  | missing
  | invalid
  | ok
deriving DecidableEq, Repr

/-- `verifySessionlessAuth` from covenant.js: all four fields must be
present (non-falsy), and the signature must verify over
`timestamp + userUUID` (no contract) or `timestamp + userUUID +
contractUUID`.  On failure the handler responds 401 and stops. -/
def verifySessionlessAuth (verify : Verify)
    (signature timestamp userUUID pubKey : String)
    (contractUUID : Option String) : AuthCheck :=
  if signature = "" ∨ timestamp = "" ∨ userUUID = "" ∨ pubKey = "" then
    .missing
  else
    let message := match contractUUID with
      | some c => timestamp ++ userUUID ++ c
      | none => timestamp ++ userUUID
    if verify signature message pubKey then .ok else .invalid

/-- Request body of `PUT /contract/:uuid/sign`.  A missing `stepId` or
`stepSignature` is modelled as `""` (the handler tests falsiness). -/
structure SignRequest where
  signature : String
  timestamp : String
  userUUID : String
  pubKey : String
  stepId : String
  stepSignature : String
deriving DecidableEq, Repr

/-- The per-participant completion test of the sign handler:
`step.signatures[participant] !== null`.  An absent key (JS `undefined`)
passes the test; only an explicit `null` entry fails it. -/
def jsSignedCheck (m : SigMap) (p : String) : Bool :=
  decide (lookupAssoc m p ≠ some none)

/-- `contract.participants.every(p => step.signatures[p] !== null)`. -/
def allSigned (participants : List String) (m : SigMap) : Bool :=
  participants.all (jsSignedCheck m)

/-- The SignatureRecord the sign handler installs. -/
def mkSigRecord (r : SignRequest) (contractUUID now : String) :
    SignatureRecord :=
  { signature := r.stepSignature,
    timestamp := r.timestamp,
    pubKey := r.pubKey,
    message := r.timestamp ++ r.userUUID ++ contractUUID ++ r.stepId,
    signedAt := now }

/-- Replace the first step whose id matches (the handler mutates the
object returned by `contract.steps.find(...)` in place). -/
def replaceFirstStep : List Step → String → Step → List Step
  | [], _, _ => []
  | s :: rest, sid, s' =>
      if s.id = sid then s' :: rest else s :: replaceFirstStep rest sid s'

/-- Result of the sign-step handler; the `ok` case carries the mutated
contract (before persistence) and the two response booleans
`stepCompleted` and `magicTriggered`. -/
inductive SignResult where
  | authMissing
  | authFailed
  | contractNotFound
  | notParticipant
  | missingFields
  | stepNotFound
  | invalidStepSignature
  | ok (c : Contract) (stepCompleted : Bool) (magicTriggered : Bool)
deriving DecidableEq, Repr

/-- HTTP status of each sign-handler outcome. -/
def signResultStatus : SignResult → Nat
  | .authMissing => 401
  | .authFailed => 401
  | .contractNotFound => 404
  | .notParticipant => 403
  | .missingFields => 400
  | .stepNotFound => 404
  | .invalidStepSignature => 401
  | .ok _ _ _ => 200

/-- The body of `app.put('/contract/:uuid/sign')`, applied to the
already-loaded contract (`loaded`); `now` is the wall clock used for
`signed_at`, `completedAt` and `updatedAt`.  Checks, in source order:
endpoint auth, contract existence, participant membership, presence of
`stepId`/`stepSignature`, step existence, the step signature over
`timestamp + userUUID + contractUUID + stepId`; then installs the
SignatureRecord, recomputes completion with the `!== null` test, and
answers with `stepCompleted` and `magicTriggered`. -/
def signStepHandler (verify : Verify) (loaded : Option Contract)
    (uuid : String) (r : SignRequest) (now : String) : SignResult :=
  match verifySessionlessAuth verify r.signature r.timestamp r.userUUID
      r.pubKey (some uuid) with
  | .missing => .authMissing
  | .invalid => .authFailed
  | .ok =>
    match loaded with
    | none => .contractNotFound
    | some contract =>
      if r.pubKey ∈ contract.participants then
        if r.stepId = "" ∨ r.stepSignature = "" then .missingFields
        else
          match contract.steps.find? (fun s => s.id = r.stepId) with
          | none => .stepNotFound
          | some step0 =>
            let stepMessage :=
              r.timestamp ++ r.userUUID ++ uuid ++ r.stepId
            if verify r.stepSignature stepMessage r.pubKey then
              let step1 := { step0 with
                signatures :=
                  setAssoc step0.signatures r.pubKey
                    (some (mkSigRecord r uuid now)) }
              let nowSigned := allSigned contract.participants step1.signatures
              let step2 :=
                if nowSigned && !step1.completed then
                  { step1 with completed := true, completedAt := some now }
                else step1
              let contract' := { contract with
                steps := replaceFirstStep contract.steps r.stepId step2,
                updatedAt := now }
              .ok contract' step2.completed
                (step2.completed && step0.magicSpell.isSome)
            else .invalidStepSignature
      else .notParticipant

/-! ## Persistence: BDO replication with local fallback -/

/-- Environment of one `saveContractToBDO` call.  `freshPubKey` is the
public key of the keypair `sessionless.generateKeys` mints on this call
(the source generates a fresh pair on *every* save).  `createOutcome` is
`some bdoUuid` when `bdo.createUser` succeeds and `none` when it throws:
in the throwing case the inner `catch` block references the
block-scoped `originalGetKeys` binding, which is not in scope there, so
a ReferenceError propagates to the outer catch and the function falls
back to a local-only save (the `bdo.getBDO` recovery path is
unreachable).  `scgOutcome` is the scg-entry creation outcome and
`svgOf` the SVG renderer (`generateContractSVG`), whose output text no
claim inspects. -/
structure SaveEnv where
  freshPubKey : String
  createOutcome : Option String
  scgOutcome : Option String
  svgOf : Contract → String

/-- The contract-document mutations of `saveContractToBDO`: stamp the
freshly generated pubKey (always), and on a successful remote create
also record the BDO record id, the rendered SVG, and (when it succeeds)
the scg entry id. -/
def saveContractToBDO (env : SaveEnv) (c : Contract) : Contract :=
  let c1 := { c with pubKey := some env.freshPubKey }
  match env.createOutcome with
  | none => c1
  | some bid =>
    let c2 := { c1 with bdoUuid := some bid }
    let c3 := { c2 with svgContent := some (env.svgOf c2) }
    match env.scgOutcome with
    | none => c3
    | some sid => { c3 with scgBdoUuid := some sid }

/-- Server-side persisted state: the local contract documents
(`data/contracts/<uuid>.json`) and the contract-UUID to pubKey mapping
(`keys/contract-pubkey-mapping.json`). -/
structure ServerState where
  contracts : List (String × Contract)
  mapping : List (String × String)
deriving DecidableEq, Repr

/-- Full effect of `saveContractToBDO` on the server state: the mapping
is updated first (always, before the remote create is attempted), and
the mutated document is saved locally last on every path. -/
def persistContract (env : SaveEnv) (st : ServerState) (c : Contract) :
    Contract × ServerState :=
  let c' := saveContractToBDO env c
  (c', { contracts := setAssoc st.contracts c'.uuid c',
         mapping := setAssoc st.mapping c'.uuid env.freshPubKey })

/-- `loadContractFromBDO`: load the local document; if it has no
`bdoUuid`, return it; otherwise look up the contract's pubKey mapping
(failure ⇒ local copy), check the keypair file exists (`getKeys` throws
otherwise, caught ⇒ local copy), and fetch from BDO
(`remoteFetch bdoUuid hash`; failure or missing data ⇒ local copy). -/
def loadContractFromBDO (st : ServerState) (keyFiles : List String)
    (remoteFetch : String → String → Option Contract)
    (uuid : String) : Option Contract :=
  match lookupAssoc st.contracts uuid with
  | none => none
  | some localContract =>
    match localContract.bdoUuid with
    | none => some localContract
    | some bid =>
      match lookupAssoc st.mapping uuid with
      | none => some localContract
      | some pk =>
        if pk ∈ keyFiles then
          match remoteFetch bid uuid with
          | some doc => some doc
          | none => some localContract
        else some localContract

/-- `PUT /contract/:uuid/sign` at the level of the server state: load
the contract, run the handler, and persist through `saveContractToBDO`
exactly when the handler reaches its success path; every error response
leaves the state untouched.  The `ok` result carries the document as
persisted. -/
def signStepStore (verify : Verify) (env : SaveEnv)
    (keyFiles : List String)
    (remoteFetch : String → String → Option Contract)
    (st : ServerState) (uuid : String) (r : SignRequest) (now : String) :
    SignResult × ServerState :=
  match signStepHandler verify
      (loadContractFromBDO st keyFiles remoteFetch uuid) uuid r now with
  | .ok c' sc mt =>
      let (saved, st') := persistContract env st c'
      (.ok saved sc mt, st')
  | e => (e, st)

/-! ## Helper lemmas -/

theorem lookupAssoc_setAssoc_self {α : Type} (m : List (String × α))
    (k : String) (v : α) : lookupAssoc (setAssoc m k v) k = some v := by
  induction m with
  | nil => simp [setAssoc, lookupAssoc]
  | cons a rest ih =>
      by_cases h : a.1 = k
      · simp [setAssoc, h, lookupAssoc]
      · simp [setAssoc, h, lookupAssoc, ih]

theorem find?_replaceFirstStep (steps : List Step) (sid : String)
    (s' : Step) (h : s'.id = sid) (step0 : Step)
    (hfind : steps.find? (fun s => s.id = sid) = some step0) :
    (replaceFirstStep steps sid s').find? (fun s => s.id = sid) = some s' := by
  induction steps with
  | nil => simp [List.find?] at hfind
  | cons a rest ih =>
      by_cases ha : a.id = sid
      · simp [replaceFirstStep, ha, List.find?, h]
      · rw [List.find?_cons_of_neg _ (by simp [ha])] at hfind
        simp only [replaceFirstStep, if_neg ha]
        rw [List.find?_cons_of_neg _ (by simp [ha])]
        exact ih hfind

/-- Reduction of the sign handler on its success path: with valid
endpoint auth, a loaded contract, a participating caller, present
fields, an existing step, and a verifying step signature, the handler
installs the record and recomputes completion as written in the source. -/
theorem signStepHandler_success_path (verify : Verify) (c : Contract)
    (uuid : String) (r : SignRequest) (now : String) (step0 : Step)
    (hauth : verifySessionlessAuth verify r.signature r.timestamp
      r.userUUID r.pubKey (some uuid) = .ok)
    (hpart : r.pubKey ∈ c.participants)
    (hsid : r.stepId ≠ "") (hsig : r.stepSignature ≠ "")
    (hfind : c.steps.find? (fun s => s.id = r.stepId) = some step0)
    (hv : verify r.stepSignature
      (r.timestamp ++ r.userUUID ++ uuid ++ r.stepId) r.pubKey = true) :
    signStepHandler verify (some c) uuid r now =
      (let step1 := { step0 with
        signatures := setAssoc step0.signatures r.pubKey
          (some (mkSigRecord r uuid now)) }
       let step2 :=
         if allSigned c.participants step1.signatures && !step1.completed then
           { step1 with completed := true, completedAt := some now }
         else step1
       SignResult.ok
         { c with steps := replaceFirstStep c.steps r.stepId step2,
                  updatedAt := now }
         step2.completed (step2.completed && step0.magicSpell.isSome)) := by
  simp only [signStepHandler, hauth]
  rw [if_pos hpart, if_neg (by simp [hsid, hsig]), hfind]
  simp only [hv, if_true]

/-! ## Test fixtures and result extractors -/

/-- A verifier that accepts every signature (used to exercise paths where
all supplied signatures are valid). -/
def verifyAll : Verify := fun _ _ _ => true

/-- A remote fetch that always fails (BDO unreachable). -/
def noRemote : String → String → Option Contract := fun _ _ => none

/-- A save environment where the remote create fails (BDO unreachable):
only the fresh keypair stamping and the local save take effect. -/
def envLocal : SaveEnv :=
  { freshPubKey := "k1", createOutcome := none, scgOutcome := none,
    svgOf := fun _ => "svg" }

def oldRecPa : SignatureRecord :=
  { signature := "sig-old-a", timestamp := "1", pubKey := "pa",
    message := "m-a", signedAt := "1" }

def oldRecPb : SignatureRecord :=
  { signature := "sig-old-b", timestamp := "2", pubKey := "pb",
    message := "m-b", signedAt := "2" }

/-- A two-participant, one-step contract around the given step. -/
def mkTestContract (uuid : String) (st : Step) : Contract :=
  { uuid := uuid, title := "t", description := "",
    participants := ["pa", "pb"], steps := [st],
    productUuid := none, bdoLocation := none,
    createdAt := "0", updatedAt := "0", status := "active",
    creator := "pa", pubKey := none, bdoUuid := none,
    svgContent := none, scgBdoUuid := none }

/-- A fully signed, completed step. -/
def completedStep : Step :=
  { id := "st1", description := "ship", magicSpell := none, order := 0,
    signatures := [("pa", some oldRecPa), ("pb", some oldRecPb)],
    completed := true, completedAt := some "5", createdAt := "0" }

def completedContract : Contract := mkTestContract "c1" completedStep

/-- A step marked completed although both entries are still `null`
(reachable through a wholesale `steps` replacement on update, which is
not validated beyond descriptions). -/
def staleStep : Step :=
  { id := "st1", description := "ship", magicSpell := none, order := 0,
    signatures := [("pa", none), ("pb", none)],
    completed := true, completedAt := none, createdAt := "0" }

def staleCompletedContract : Contract := mkTestContract "c4" staleStep

/-- A step whose signature map is empty: both participants are *absent*
(JS `undefined`), not `null` (reachable through a wholesale `steps`
replacement on update). -/
def gapStep : Step :=
  { id := "st1", description := "ship", magicSpell := none, order := 0,
    signatures := [], completed := false, completedAt := none,
    createdAt := "0" }

def gapContract : Contract := mkTestContract "cg" gapStep

/-- Sign request by participant `pa` with all fields present. -/
def paSignReq : SignRequest :=
  { signature := "es", timestamp := "9", userUUID := "ua",
    pubKey := "pa", stepId := "st1", stepSignature := "ss" }

/-- Sign request by `pc`, who is not a participant. -/
def pcSignReq : SignRequest :=
  { signature := "es", timestamp := "9", userUUID := "uc",
    pubKey := "pc", stepId := "st1", stepSignature := "ss" }

/-- The `stepCompleted` boolean of a successful sign response. -/
def responseStepCompleted : SignResult → Option Bool
  | .ok _ sc _ => some sc
  | _ => none

/-- The `magicTriggered` boolean of a successful sign response. -/
def responseMagicTriggered : SignResult → Option Bool
  | .ok _ _ mt => some mt
  | _ => none

/-- In a successful sign result, the signature-map entry of participant
`p` on step `sid`: `none` if the result is an error or the step is
absent, `some none` if the key is absent (JS `undefined`),
`some (some none)` for a `null` entry, `some (some (some rec))` for an
installed record. -/
def resultStepEntry (res : SignResult) (sid p : String) :
    Option (Option (Option SignatureRecord)) :=
  match res with
  | .ok c _ _ =>
      (c.steps.find? (fun s => s.id = sid)).map
        (fun s => lookupAssoc s.signatures p)
  | _ => none

/-- C1 counterexample: a sign request on a step whose `completed` flag is
already true is *not* rejected — the handler answers 200 and installs a
fresh SignatureRecord over the caller's previous one (there is no
StepAlreadyComplete check in the handler). -/
theorem signStep_completedStep_counterexample :
    signResultStatus
      (signStepHandler verifyAll (some completedContract) "c1" paSignReq "99")
      = 200 ∧
    resultStepEntry
      (signStepHandler verifyAll (some completedContract) "c1" paSignReq "99")
      "st1" "pa"
      = some (some (some (mkSigRecord paSignReq "c1" "99"))) := by decide

/-- C4 counterexample: on a step whose `completed` flag was already true
while a participant entry is still `null`, a successful sign reports
`stepCompleted = true` even though not every participant entry is
non-null (the handler only ever raises the flag, it never recomputes it
downward). -/
theorem signStep_completion_counterexample :
    responseStepCompleted
      (signStepHandler verifyAll (some staleCompletedContract) "c4" paSignReq "99")
      = some true ∧
    resultStepEntry
      (signStepHandler verifyAll (some staleCompletedContract) "c4" paSignReq "99")
      "st1" "pb" = some (some none) := by decide

/-- C10: the completion test `signatures[p] !== null` treats an *absent*
entry (JS `undefined`) as signed, so on a step whose signature map lacks
entries a single valid signature completes the step: after `pa` signs
the empty-map step, the response reports `stepCompleted = true` while
`pb` has no SignatureRecord at all (entry absent). -/
theorem signStep_absentEntry_counts_as_signed :
    (∀ (m : SigMap) (p : String),
      lookupAssoc m p = none → jsSignedCheck m p = true) ∧
    responseStepCompleted
      (signStepHandler verifyAll (some gapContract) "cg" paSignReq "99")
      = some true ∧
    resultStepEntry
      (signStepHandler verifyAll (some gapContract) "cg" paSignReq "99")
      "st1" "pb" = some none := by
  refine ⟨fun m p h => by simp [jsSignedCheck, h], by decide, by decide⟩

/-- Witness for C10's general conjunct at a concrete map. -/
theorem signStep_absentEntry_counts_as_signed_witness :
    lookupAssoc ([] : SigMap) "pb" = none ∧ jsSignedCheck [] "pb" = true :=
  ⟨by decide, signStep_absentEntry_counts_as_signed.1 [] "pb" (by decide)⟩

/-! ## Sign-step claims: general theorems -/

theorem saveContractToBDO_uuid (env : SaveEnv) (c : Contract) :
    (saveContractToBDO env c).uuid = c.uuid := by
  unfold saveContractToBDO
  cases env.createOutcome <;> cases env.scgOutcome <;> simp

theorem saveContractToBDO_steps (env : SaveEnv) (c : Contract) :
    (saveContractToBDO env c).steps = c.steps := by
  unfold saveContractToBDO
  cases env.createOutcome <;> cases env.scgOutcome <;> simp

/-- C5: a sign-step request by a caller whose public key is not in the
participant list fails 403 Forbidden and leaves the stored state (hence
every signature map) unchanged, for *any* step signature — in
particular even when the endpoint-auth signature verified. -/
theorem signStep_nonParticipant_forbidden (verify : Verify)
    (env : SaveEnv) (keyFiles : List String)
    (remoteFetch : String → String → Option Contract)
    (st : ServerState) (uuid : String) (r : SignRequest) (now : String)
    (c : Contract)
    (hload : loadContractFromBDO st keyFiles remoteFetch uuid = some c)
    (hauth : verifySessionlessAuth verify r.signature r.timestamp
      r.userUUID r.pubKey (some uuid) = .ok)
    (hnot : r.pubKey ∉ c.participants) :
    signStepStore verify env keyFiles remoteFetch st uuid r now
      = (.notParticipant, st) ∧
    signResultStatus
      (signStepStore verify env keyFiles remoteFetch st uuid r now).1
      = 403 := by
  have h : signStepHandler verify
      (loadContractFromBDO st keyFiles remoteFetch uuid) uuid r now
      = .notParticipant := by
    rw [hload]
    simp only [signStepHandler, hauth]
    rw [if_neg hnot]
  refine ⟨?_, ?_⟩ <;> simp only [signStepStore, h, signResultStatus]

/-- Witness for C5 at a concrete state: `pc` holds a valid endpoint
signature and a valid step signature but is not a participant; the
response is 403 and the state is untouched. -/
theorem signStep_nonParticipant_forbidden_witness :
    loadContractFromBDO
        { contracts := [("c1", completedContract)], mapping := [] } []
        noRemote "c1" = some completedContract ∧
    verifySessionlessAuth verifyAll pcSignReq.signature pcSignReq.timestamp
      pcSignReq.userUUID pcSignReq.pubKey (some "c1") = .ok ∧
    pcSignReq.pubKey ∉ completedContract.participants ∧
    signStepStore verifyAll envLocal [] noRemote
        { contracts := [("c1", completedContract)], mapping := [] }
        "c1" pcSignReq "99"
      = (.notParticipant,
         { contracts := [("c1", completedContract)], mapping := [] }) :=
  ⟨by decide, by decide, by decide,
    (signStep_nonParticipant_forbidden verifyAll envLocal [] noRemote
      { contracts := [("c1", completedContract)], mapping := [] }
      "c1" pcSignReq "99" completedContract (by decide) (by decide)
      (by decide)).1⟩

/-- C3: with valid endpoint auth, an existing contract, a participating
caller, present fields and an existing step, the step-signature gate
decides the outcome: a non-verifying `stepSignature` yields 401
InvalidStepSignature with the stored state unchanged, and a verifying
one installs the caller's SignatureRecord (over the canonical message
`timestamp + userUUID + contractUUID + stepId`) in the persisted
document. -/
theorem signStep_stepSignature_gate (verify : Verify) (env : SaveEnv)
    (keyFiles : List String)
    (remoteFetch : String → String → Option Contract)
    (st : ServerState) (uuid : String) (r : SignRequest) (now : String)
    (c : Contract) (step0 : Step)
    (hload : loadContractFromBDO st keyFiles remoteFetch uuid = some c)
    (hauth : verifySessionlessAuth verify r.signature r.timestamp
      r.userUUID r.pubKey (some uuid) = .ok)
    (hpart : r.pubKey ∈ c.participants)
    (hsid : r.stepId ≠ "") (hsig : r.stepSignature ≠ "")
    (hfind : c.steps.find? (fun s => s.id = r.stepId) = some step0) :
    (verify r.stepSignature
        (r.timestamp ++ r.userUUID ++ uuid ++ r.stepId) r.pubKey = false →
      signStepStore verify env keyFiles remoteFetch st uuid r now
        = (.invalidStepSignature, st) ∧
      signResultStatus
        (signStepStore verify env keyFiles remoteFetch st uuid r now).1
        = 401) ∧
    (verify r.stepSignature
        (r.timestamp ++ r.userUUID ++ uuid ++ r.stepId) r.pubKey = true →
      ∃ saved sc mt,
        signStepStore verify env keyFiles remoteFetch st uuid r now
          = (.ok saved sc mt,
             { contracts := setAssoc st.contracts c.uuid saved,
               mapping := setAssoc st.mapping c.uuid env.freshPubKey }) ∧
        (saved.steps.find? (fun s => s.id = r.stepId)).map
            (fun s => lookupAssoc s.signatures r.pubKey)
          = some (some (some (mkSigRecord r uuid now)))) := by
  have hid0 : step0.id = r.stepId := by
    have h1 := List.find?_some hfind
    simpa using h1
  constructor
  · intro hvf
    have h : signStepHandler verify
        (loadContractFromBDO st keyFiles remoteFetch uuid) uuid r now
        = .invalidStepSignature := by
      rw [hload]
      simp only [signStepHandler, hauth]
      rw [if_pos hpart, if_neg (by simp [hsid, hsig]), hfind]
      simp [hvf]
    refine ⟨?_, ?_⟩ <;> simp only [signStepStore, h, signResultStatus]
  · intro hvt
    have h := signStepHandler_success_path verify c uuid r now step0
      hauth hpart hsid hsig hfind hvt
    simp only at h
    set step1 : Step := { step0 with
      signatures := setAssoc step0.signatures r.pubKey
        (some (mkSigRecord r uuid now)) } with hstep1
    set step2 : Step :=
      if allSigned c.participants step1.signatures && !step1.completed then
        { step1 with completed := true, completedAt := some now }
      else step1 with hstep2
    have hsigs2 : step2.signatures
        = setAssoc step0.signatures r.pubKey
          (some (mkSigRecord r uuid now)) := by
      rw [hstep2]
      by_cases hb :
          (allSigned c.participants step1.signatures && !step1.completed)
            = true <;>
        simp [hb, hstep1]
    have hid2 : step2.id = r.stepId := by
      rw [hstep2]
      by_cases hb :
          (allSigned c.participants step1.signatures && !step1.completed)
            = true <;>
        simp [hb, hstep1, hid0]
    set c' : Contract := { c with
      steps := replaceFirstStep c.steps r.stepId step2,
      updatedAt := now } with hc'
    have hstore : signStepStore verify env keyFiles remoteFetch st uuid r now
        = (.ok (saveContractToBDO env c') step2.completed
            (step2.completed && step0.magicSpell.isSome),
           { contracts :=
               setAssoc st.contracts (saveContractToBDO env c').uuid
                 (saveContractToBDO env c'),
             mapping :=
               setAssoc st.mapping (saveContractToBDO env c').uuid
                 env.freshPubKey }) := by
      simp only [signStepStore, hload, h, persistContract]
    refine ⟨saveContractToBDO env c', step2.completed,
      step2.completed && step0.magicSpell.isSome, ?_, ?_⟩
    · rw [hstore, saveContractToBDO_uuid]
    · rw [saveContractToBDO_steps]
      have hfind2 : c'.steps.find? (fun s => s.id = r.stepId) = some step2 := by
        rw [hc']
        exact find?_replaceFirstStep c.steps r.stepId step2 hid2 step0 hfind
      rw [hfind2]
      simp [hsigs2, lookupAssoc_setAssoc_self]

/-- Witness for C3 at a concrete state: a verifier that accepts exactly
the endpoint signature (and rejects the step signature) produces 401
with an unchanged state. -/
theorem signStep_stepSignature_gate_witness :
    (fun (sg : String) _ _ => sg == "es" : Verify) paSignReq.stepSignature
        (paSignReq.timestamp ++ paSignReq.userUUID ++ "c1" ++
          paSignReq.stepId) paSignReq.pubKey = false ∧
    signStepStore (fun (sg : String) _ _ => sg == "es") envLocal [] noRemote
        { contracts := [("c1", completedContract)], mapping := [] }
        "c1" paSignReq "99"
      = (.invalidStepSignature,
         { contracts := [("c1", completedContract)], mapping := [] }) :=
  ⟨by decide,
    ((signStep_stepSignature_gate (fun (sg : String) _ _ => sg == "es")
      envLocal [] noRemote
      { contracts := [("c1", completedContract)], mapping := [] }
      "c1" paSignReq "99" completedContract completedStep (by decide)
      (by decide) (by decide) (by decide) (by decide) (by decide)).1
      (by decide)).1⟩

/-- C1 (amended): a sign-step request on a step whose `completed` flag is
already true is *not* rejected; with valid signatures it succeeds,
overwrites the caller's signature-map entry with the fresh
SignatureRecord, reports `stepCompleted = true`, and leaves the
`completed` flag (and `completedAt`) unchanged. -/
theorem signStep_completedStep_accepted (verify : Verify) (c : Contract)
    (uuid : String) (r : SignRequest) (now : String) (step0 : Step)
    (hauth : verifySessionlessAuth verify r.signature r.timestamp
      r.userUUID r.pubKey (some uuid) = .ok)
    (hpart : r.pubKey ∈ c.participants)
    (hsid : r.stepId ≠ "") (hsig : r.stepSignature ≠ "")
    (hfind : c.steps.find? (fun s => s.id = r.stepId) = some step0)
    (hv : verify r.stepSignature
      (r.timestamp ++ r.userUUID ++ uuid ++ r.stepId) r.pubKey = true)
    (hcomp : step0.completed = true) :
    ∃ c', signStepHandler verify (some c) uuid r now
        = .ok c' true (step0.magicSpell.isSome) ∧
      c'.steps.find? (fun s => s.id = r.stepId)
        = some { step0 with
            signatures := setAssoc step0.signatures r.pubKey
              (some (mkSigRecord r uuid now)) } := by
  have hid0 : step0.id = r.stepId := by
    have h1 := List.find?_some hfind
    simpa using h1
  have h := signStepHandler_success_path verify c uuid r now step0
    hauth hpart hsid hsig hfind hv
  simp only at h
  have hcond :
      (allSigned c.participants
          (setAssoc step0.signatures r.pubKey
            (some (mkSigRecord r uuid now))) && !step0.completed)
        = false := by
    rw [hcomp]; simp
  rw [hcond] at h
  simp only [Bool.false_eq_true, if_false] at h
  rw [hcomp] at h
  simp only [Bool.true_and] at h
  refine ⟨_, h, ?_⟩
  have hrec : ({ step0 with
      signatures := setAssoc step0.signatures r.pubKey
        (some (mkSigRecord r uuid now)) } : Step)
      = { step0 with
          signatures := setAssoc step0.signatures r.pubKey
            (some (mkSigRecord r uuid now)),
          completed := true } := by rw [hcomp]
  rw [hrec]
  exact find?_replaceFirstStep _ _ _ (by simpa using hid0) _ hfind

/-- Witness for C1 (amended) at a concrete completed step. -/
theorem signStep_completedStep_accepted_witness :
    completedStep.completed = true ∧
    (∃ c', signStepHandler verifyAll (some completedContract) "c1"
        paSignReq "99"
        = .ok c' true (completedStep.magicSpell.isSome) ∧
      c'.steps.find? (fun s => s.id = paSignReq.stepId)
        = some { completedStep with
            signatures := setAssoc completedStep.signatures "pa"
              (some (mkSigRecord paSignReq "c1" "99")) }) :=
  ⟨by decide,
    signStep_completedStep_accepted verifyAll completedContract "c1"
      paSignReq "99" completedStep (by decide) (by decide) (by decide)
      (by decide) (by decide) (by decide) (by decide)⟩

/-- C4 (amended): on a successful sign-step, the step's `completed` flag
after the operation equals (previously completed) OR (every participant
entry is `!== null` after the new signature is installed); `completedAt`
is stamped with the current time exactly when the flag newly becomes
true; the response reports `stepCompleted` equal to the flag and
`magicTriggered` equal to the flag AND the presence of a `magicSpell`
effect descriptor. -/
theorem signStep_completion_flag_characterization (verify : Verify)
    (c : Contract) (uuid : String) (r : SignRequest) (now : String)
    (step0 : Step)
    (hauth : verifySessionlessAuth verify r.signature r.timestamp
      r.userUUID r.pubKey (some uuid) = .ok)
    (hpart : r.pubKey ∈ c.participants)
    (hsid : r.stepId ≠ "") (hsig : r.stepSignature ≠ "")
    (hfind : c.steps.find? (fun s => s.id = r.stepId) = some step0)
    (hv : verify r.stepSignature
      (r.timestamp ++ r.userUUID ++ uuid ++ r.stepId) r.pubKey = true) :
    ∃ c' st2,
      signStepHandler verify (some c) uuid r now
        = .ok c' st2.completed (st2.completed && step0.magicSpell.isSome) ∧
      c'.steps.find? (fun s => s.id = r.stepId) = some st2 ∧
      st2.signatures = setAssoc step0.signatures r.pubKey
        (some (mkSigRecord r uuid now)) ∧
      st2.completed = (step0.completed ||
        allSigned c.participants
          (setAssoc step0.signatures r.pubKey
            (some (mkSigRecord r uuid now)))) ∧
      st2.completedAt =
        (if step0.completed = false ∧
            allSigned c.participants
              (setAssoc step0.signatures r.pubKey
                (some (mkSigRecord r uuid now))) = true
         then some now else step0.completedAt) := by
  have hid0 : step0.id = r.stepId := by
    have h1 := List.find?_some hfind
    simpa using h1
  have h := signStepHandler_success_path verify c uuid r now step0
    hauth hpart hsid hsig hfind hv
  simp only at h
  refine ⟨_, _, h, ?_, ?_, ?_, ?_⟩
  · exact find?_replaceFirstStep _ _ _
      (by
        by_cases hb :
            (allSigned c.participants
                (setAssoc step0.signatures r.pubKey
                  (some (mkSigRecord r uuid now))) && !step0.completed)
              = true <;>
          simp [hb, hid0]) _ hfind
  · by_cases hb :
        (allSigned c.participants
            (setAssoc step0.signatures r.pubKey
              (some (mkSigRecord r uuid now))) && !step0.completed)
          = true <;>
      simp [hb]
  · by_cases hA :
        allSigned c.participants
          (setAssoc step0.signatures r.pubKey
            (some (mkSigRecord r uuid now))) = true <;>
      by_cases hc0 : step0.completed = true <;>
        simp [hA, hc0]
  · by_cases hA :
        allSigned c.participants
          (setAssoc step0.signatures r.pubKey
            (some (mkSigRecord r uuid now))) = true <;>
      by_cases hc0 : step0.completed = true <;>
        simp [hA, hc0]

/-- A not-yet-completed step with both entries `null` and an effect
descriptor attached. -/
def freshNullStep : Step :=
  { id := "st1", description := "ship", magicSpell := some "payment",
    order := 0, signatures := [("pa", none), ("pb", none)],
    completed := false, completedAt := none, createdAt := "0" }

def freshNullContract : Contract := mkTestContract "c2" freshNullStep

/-- Witness for C4 (amended) at a concrete contract: `pa` signs first,
the step stays incomplete because `pb`'s entry is still `null`. -/
theorem signStep_completion_flag_characterization_witness :
    verifySessionlessAuth verifyAll paSignReq.signature paSignReq.timestamp
      paSignReq.userUUID paSignReq.pubKey (some "c2") = .ok ∧
    (∃ c' st2,
      signStepHandler verifyAll (some freshNullContract) "c2" paSignReq "99"
        = .ok c' st2.completed
            (st2.completed && freshNullStep.magicSpell.isSome) ∧
      c'.steps.find? (fun s => s.id = paSignReq.stepId) = some st2 ∧
      st2.signatures = setAssoc freshNullStep.signatures "pa"
        (some (mkSigRecord paSignReq "c2" "99")) ∧
      st2.completed = (freshNullStep.completed ||
        allSigned freshNullContract.participants
          (setAssoc freshNullStep.signatures "pa"
            (some (mkSigRecord paSignReq "c2" "99")))) ∧
      st2.completedAt =
        (if freshNullStep.completed = false ∧
            allSigned freshNullContract.participants
              (setAssoc freshNullStep.signatures "pa"
                (some (mkSigRecord paSignReq "c2" "99"))) = true
         then some "99" else freshNullStep.completedAt)) :=
  ⟨by decide,
    signStep_completion_flag_characterization verifyAll freshNullContract
      "c2" paSignReq "99" freshNullStep (by decide) (by decide) (by decide)
      (by decide) (by decide) (by decide)⟩

/-! ## Update, create, delete and user handlers -/

/-- Request body of `PUT /contract/:uuid`.  Besides the auth fields and
the four updatable fields, the body may carry arbitrary further fields;
`participants`, `creator` and `bdoUuid` stand for such extra fields (the
handler never reads them). -/
structure UpdateRequest where
  signature : String
  timestamp : String
  userUUID : String
  pubKey : String
  title : Option String
  description : Option String
  steps : Option (List Step)
  status : Option String
  participants : Option (List String)
  creator : Option String
  bdoUuid : Option String
deriving DecidableEq, Repr

inductive UpdateResult where
  | authMissing
  | authFailed
  | notFound
  | forbidden
  | validationFailed (msg : String)
  | ok (c : Contract)
deriving DecidableEq, Repr

def updateResultStatus : UpdateResult → Nat
  | .authMissing => 401
  | .authFailed => 401
  | .notFound => 404
  | .forbidden => 403
  | .validationFailed _ => 400
  | .ok _ => 200

/-- The field overlay of the update handler: exactly `title`,
`description`, `steps` and `status` are copied when present
(`updates[field] !== undefined`), and `updatedAt` is refreshed. -/
def applyUpdates (c : Contract) (r : UpdateRequest) (now : String) :
    Contract :=
  { c with
    title := r.title.getD c.title,
    description := r.description.getD c.description,
    steps := r.steps.getD c.steps,
    status := r.status.getD c.status,
    updatedAt := now }

/-- The body of `app.put('/contract/:uuid')`: endpoint auth with the
contract UUID, existence, creator-or-participant authorization, overlay
of the allowed fields, revalidation. -/
def updateContractHandler (verify : Verify) (loaded : Option Contract)
    (uuid : String) (r : UpdateRequest) (now : String) : UpdateResult :=
  match verifySessionlessAuth verify r.signature r.timestamp r.userUUID
      r.pubKey (some uuid) with
  | .missing => .authMissing
  | .invalid => .authFailed
  | .ok =>
    match loaded with
    | none => .notFound
    | some contract =>
      if contract.creator = r.pubKey ∨ r.pubKey ∈ contract.participants then
        match validateContract (applyUpdates contract r now) with
        | some msg => .validationFailed msg
        | none => .ok (applyUpdates contract r now)
      else .forbidden

/-- `PUT /contract/:uuid` at the level of the server state: persistence
through `saveContractToBDO` happens only on the success path. -/
def updateContractStore (verify : Verify) (env : SaveEnv)
    (keyFiles : List String)
    (remoteFetch : String → String → Option Contract)
    (st : ServerState) (uuid : String) (r : UpdateRequest)
    (now : String) : UpdateResult × ServerState :=
  match updateContractHandler verify
      (loadContractFromBDO st keyFiles remoteFetch uuid) uuid r now with
  | .ok c1 =>
      let (saved, st') := persistContract env st c1
      (.ok saved, st')
  | e => (e, st)

/-- One raw step of a create request (`id` may be omitted;
`magicSpell`/`magic_spell` collapse to one optional field). -/
structure StepInput where
  id : Option String
  description : String
  magicSpell : Option String
deriving DecidableEq, Repr

/-- Request body of `POST /contract`. -/
structure CreateRequest where
  signature : String
  timestamp : String
  userUUID : String
  pubKey : String
  title : String
  description : Option String
  participants : Option (List String)
  steps : Option (List StepInput)
  productUuid : Option String
  bdoLocation : Option String
deriving DecidableEq, Repr

/-- The step construction of the create handler: assign the given id or
a fresh one, set `order` to the position, start with an *empty*
signature map and `completed = false`. -/
def mkSteps (freshIds : Nat → String) (now : String)
    (steps : List StepInput) : List Step :=
  steps.enum.map (fun p =>
    { id := p.2.id.getD (freshIds p.1),
      description := p.2.description,
      magicSpell := p.2.magicSpell,
      order := p.1,
      signatures := [],
      completed := false,
      completedAt := none,
      createdAt := now })

/-- After validation the create handler maps every participant of every
step to `null` in the step's signature map. -/
def initSignatures (participants : List String) (steps : List Step) :
    List Step :=
  steps.map (fun s =>
    { s with signatures :=
        participants.foldl (fun m p => setAssoc m p none) s.signatures })

inductive CreateResult where
  | authMissing
  | authFailed
  | validationFailed (msg : String)
  | ok (c : Contract)
deriving DecidableEq, Repr

def createResultStatus : CreateResult → Nat
  | .authMissing => 401
  | .authFailed => 401
  | .validationFailed _ => 400
  | .ok _ => 200

/-- The body of `app.post('/contract')`: endpoint auth without a
contract UUID, contract construction (`uuid` fresh, `status = active`,
`creator` = caller pubKey, no `pubKey`/`bdoUuid` yet), validation, then
signature-map initialization. -/
def createContractHandler (verify : Verify) (rc : CreateRequest)
    (newUuid : String) (freshIds : Nat → String) (now : String) :
    CreateResult :=
  match verifySessionlessAuth verify rc.signature rc.timestamp rc.userUUID
      rc.pubKey none with
  | .missing => .authMissing
  | .invalid => .authFailed
  | .ok =>
    let contract : Contract :=
      { uuid := newUuid,
        title := rc.title,
        description := rc.description.getD "",
        participants := rc.participants.getD [],
        steps := mkSteps freshIds now (rc.steps.getD []),
        productUuid := rc.productUuid,
        bdoLocation := rc.bdoLocation,
        createdAt := now,
        updatedAt := now,
        status := "active",
        creator := rc.pubKey,
        pubKey := none,
        bdoUuid := none,
        svgContent := none,
        scgBdoUuid := none }
    match validateContract contract with
    | some msg => .validationFailed msg
    | none =>
        .ok { contract with
          steps := initSignatures contract.participants contract.steps }

/-- `POST /contract` at the level of the server state. -/
def createContractStore (verify : Verify) (env : SaveEnv)
    (st : ServerState) (rc : CreateRequest) (newUuid : String)
    (freshIds : Nat → String) (now : String) :
    CreateResult × ServerState :=
  match createContractHandler verify rc newUuid freshIds now with
  | .ok c =>
      let (saved, st') := persistContract env st c
      (.ok saved, st')
  | e => (e, st)

inductive DeleteResult where
  | authMissing
  | authFailed
  | notFound
  | forbidden
  | ok (uuid : String)
deriving DecidableEq, Repr

def deleteResultStatus : DeleteResult → Nat
  | .authMissing => 401
  | .authFailed => 401
  | .notFound => 404
  | .forbidden => 403
  | .ok _ => 200

/-- The body of `app.delete('/contract/:uuid')`: endpoint auth with the
contract UUID, existence, creator-only authorization. -/
def deleteContractHandler (verify : Verify) (loaded : Option Contract)
    (uuid : String) (signature timestamp userUUID pubKey : String) :
    DeleteResult :=
  match verifySessionlessAuth verify signature timestamp userUUID pubKey
      (some uuid) with
  | .missing => .authMissing
  | .invalid => .authFailed
  | .ok =>
    match loaded with
    | none => .notFound
    | some contract =>
      if contract.creator ≠ pubKey then .forbidden else .ok uuid

/-- A covenant user record. -/
structure User where
  uuid : String
  pubKey : String
  createdAt : String
  updatedAt : String
deriving DecidableEq, Repr

inductive UserCreateResult where
  | authFailed
  | ok (u : User)
deriving DecidableEq, Repr

/-- `PUT /user/create` responds 403 (not 401) when the signature is
missing or does not verify over `timestamp + pubKey`. -/
def userCreateStatus : UserCreateResult → Nat
  | .authFailed => 403
  | .ok _ => 200

/-- The body of `app.put('/user/create')`. -/
def userCreateHandler (verify : Verify)
    (pubKey timestamp signature : String) (newUuid now : String) :
    UserCreateResult :=
  if signature = "" ∨ ¬ verify signature (timestamp ++ pubKey) pubKey then
    .authFailed
  else
    .ok { uuid := newUuid, pubKey := pubKey, createdAt := now,
          updatedAt := now }

inductive UserGetResult where
  | notFound
  | authFailed
  | ok (u : User)
deriving DecidableEq, Repr

/-- `GET /user/:uuid` responds 403 (not 401) on a failed signature. -/
def userGetStatus : UserGetResult → Nat
  | .notFound => 404
  | .authFailed => 403
  | .ok _ => 200

/-- The body of `app.get('/user/:uuid')`: load the user (404 when the
file is absent), then verify the query signature over
`timestamp + uuid` against the *stored* user's pubKey. -/
def userGetHandler (verify : Verify) (stored : Option User)
    (uuid timestamp signature : String) : UserGetResult :=
  match stored with
  | none => .notFound
  | some user =>
      if signature = "" ∨
          ¬ verify signature (timestamp ++ uuid) user.pubKey then
        .authFailed
      else .ok user

/-! ## Auth-failure statuses (C8), update frame (C7), key rotation (C2),
remote outage (C9) -/

/-- A verifier that rejects every signature. -/
def verifyNone : Verify := fun _ _ _ => false

/-- When every verification fails and the four auth fields are present,
the gate reports an invalid signature. -/
theorem verifySessionlessAuth_alwaysFail (verify : Verify)
    (hv : ∀ s m p, verify s m p = false)
    (s t u p : String) (cid : Option String)
    (h1 : s ≠ "") (h2 : t ≠ "") (h3 : u ≠ "") (h4 : p ≠ "") :
    verifySessionlessAuth verify s t u p cid = .invalid := by
  unfold verifySessionlessAuth
  rw [if_neg (by simp [h1, h2, h3, h4])]
  simp [hv]

/-- C8 counterexample: on `PUT /user/create` a failed signature
verification is surfaced with HTTP 403, not 401. -/
theorem userCreate_authFailure_403_counterexample :
    userCreateStatus (userCreateHandler verifyNone "pa" "9" "sg" "u1" "10")
      = 403 ∧
    userCreateStatus (userCreateHandler verifyNone "pa" "9" "sg" "u1" "10")
      ≠ 401 := by decide

/-- C8 (amended): when signature verification fails, the four contract
entry points that go through `verifySessionlessAuth` (create, update,
sign-step, delete) surface HTTP 401, while the two user endpoints
(`PUT /user/create`, `GET /user/:uuid`) surface HTTP 403. -/
theorem authFailedStatus_by_endpoint (verify : Verify)
    (hv : ∀ s m p, verify s m p = false)
    (loaded : Option Contract) (uuid now newUuid : String)
    (freshIds : Nat → String)
    (r : SignRequest)
    (hr1 : r.signature ≠ "") (hr2 : r.timestamp ≠ "")
    (hr3 : r.userUUID ≠ "") (hr4 : r.pubKey ≠ "")
    (ru : UpdateRequest)
    (hu1 : ru.signature ≠ "") (hu2 : ru.timestamp ≠ "")
    (hu3 : ru.userUUID ≠ "") (hu4 : ru.pubKey ≠ "")
    (rc : CreateRequest)
    (hc1 : rc.signature ≠ "") (hc2 : rc.timestamp ≠ "")
    (hc3 : rc.userUUID ≠ "") (hc4 : rc.pubKey ≠ "")
    (ds dt du dp : String)
    (hd1 : ds ≠ "") (hd2 : dt ≠ "") (hd3 : du ≠ "") (hd4 : dp ≠ "")
    (gp gt gs gnewUuid gnow guuid : String) (user : User) :
    signResultStatus (signStepHandler verify loaded uuid r now) = 401 ∧
    updateResultStatus (updateContractHandler verify loaded uuid ru now)
      = 401 ∧
    createResultStatus
      (createContractHandler verify rc newUuid freshIds now) = 401 ∧
    deleteResultStatus
      (deleteContractHandler verify loaded uuid ds dt du dp) = 401 ∧
    userCreateStatus (userCreateHandler verify gp gt gs gnewUuid gnow)
      = 403 ∧
    userGetStatus (userGetHandler verify (some user) guuid gt gs) = 403 := by
  refine ⟨?_, ?_, ?_, ?_, ?_, ?_⟩
  · simp only [signStepHandler,
      verifySessionlessAuth_alwaysFail verify hv _ _ _ _ _ hr1 hr2 hr3 hr4,
      signResultStatus]
  · simp only [updateContractHandler,
      verifySessionlessAuth_alwaysFail verify hv _ _ _ _ _ hu1 hu2 hu3 hu4,
      updateResultStatus]
  · simp only [createContractHandler,
      verifySessionlessAuth_alwaysFail verify hv _ _ _ _ _ hc1 hc2 hc3 hc4,
      createResultStatus]
  · simp only [deleteContractHandler,
      verifySessionlessAuth_alwaysFail verify hv _ _ _ _ _ hd1 hd2 hd3 hd4,
      deleteResultStatus]
  · simp [userCreateHandler, hv, userCreateStatus]
  · simp [userGetHandler, hv, userGetStatus]

def userFix : User :=
  { uuid := "u1", pubKey := "pa", createdAt := "0", updatedAt := "0" }

/-- A well-formed create request for the fixtures. -/
def createReqFix : CreateRequest :=
  { signature := "es", timestamp := "9", userUUID := "ua",
    pubKey := "pa", title := "t", description := some "d",
    participants := some ["pa", "pb"],
    steps := some [{ id := some "st1", description := "ship",
                     magicSpell := none }],
    productUuid := none, bdoLocation := none }

/-- An update request that only changes the title. -/
def updTitleReq : UpdateRequest :=
  { signature := "es", timestamp := "9", userUUID := "ua",
    pubKey := "pa", title := some "t2", description := none,
    steps := none, status := none, participants := none,
    creator := none, bdoUuid := none }

/-- Witness for C8 (amended) at concrete requests. -/
theorem authFailedStatus_by_endpoint_witness :
    (∀ s m p, verifyNone s m p = false) ∧
    (signResultStatus
        (signStepHandler verifyNone (some completedContract) "c1"
          paSignReq "99") = 401 ∧
      updateResultStatus
        (updateContractHandler verifyNone (some completedContract) "c1"
          updTitleReq "99") = 401 ∧
      createResultStatus
        (createContractHandler verifyNone createReqFix "cA"
          (fun _ => "sid") "10") = 401 ∧
      deleteResultStatus
        (deleteContractHandler verifyNone (some completedContract) "c1"
          "es" "9" "ua" "pa") = 401 ∧
      userCreateStatus
        (userCreateHandler verifyNone "pa" "9" "sg" "u1" "10") = 403 ∧
      userGetStatus (userGetHandler verifyNone (some userFix) "u1" "9" "sg")
        = 403) :=
  ⟨fun _ _ _ => rfl,
    authFailedStatus_by_endpoint verifyNone (fun _ _ _ => rfl)
      (some completedContract) "c1" "99" "cA" (fun _ => "sid")
      paSignReq (by decide) (by decide) (by decide) (by decide)
      updTitleReq (by decide) (by decide) (by decide) (by decide)
      createReqFix (by decide) (by decide) (by decide) (by decide)
      "es" "9" "ua" "pa" (by decide) (by decide) (by decide) (by decide)
      "pa" "9" "sg" "u1" "10" "u1" userFix⟩

/-- A contract that already carries a pubKey from its first persistence. -/
def c7contract : Contract :=
  { mkTestContract "c7" completedStep with pubKey := some "k0" }

def stC7 : ServerState :=
  { contracts := [("c7", c7contract)], mapping := [("c7", "k0")] }

/-- C7 counterexample: an update that only changes the title still
changes the persisted `pubKey` — persistence mints a fresh keypair on
every save and restamps the contract, so `pubKey` is *not* unchanged by
the update. -/
theorem updateContract_changes_pubKey_counterexample :
    (lookupAssoc stC7.contracts "c7").map Contract.pubKey
      = some (some "k0") ∧
    (lookupAssoc
        (updateContractStore verifyAll envLocal [] noRemote stC7 "c7"
          updTitleReq "77").2.contracts "c7").map Contract.pubKey
      = some (some "k1") ∧
    (some (some "k1") : Option (Option String)) ≠ some (some "k0") := by
  decide

/-- C7 (amended): the update handler overlays exactly
`{title, description, steps, status}` plus the refreshed `updatedAt`;
every other request field is ignored (the result does not depend on
them); and in the persisted document every other contract field —
`uuid`, `creator`, `participants`, `createdAt`, `productUuid`,
`bdoLocation`, and (on the local-only save path) `bdoUuid`,
`svgContent`, `scgBdoUuid` — is unchanged, *except* `pubKey`, which is
restamped with the keypair freshly minted by this save. -/
theorem updateContract_frame (verify : Verify) (env : SaveEnv)
    (keyFiles : List String)
    (remoteFetch : String → String → Option Contract)
    (st : ServerState) (uuid : String) (ru : UpdateRequest)
    (now : String) (c : Contract)
    (hload : loadContractFromBDO st keyFiles remoteFetch uuid = some c)
    (hauth : verifySessionlessAuth verify ru.signature ru.timestamp
      ru.userUUID ru.pubKey (some uuid) = .ok)
    (hallowed : c.creator = ru.pubKey ∨ ru.pubKey ∈ c.participants)
    (hvalid : validateContract (applyUpdates c ru now) = none)
    (hdown : env.createOutcome = none) :
    (∀ ps cr bu,
      updateContractStore verify env keyFiles remoteFetch st uuid
          { ru with participants := ps, creator := cr, bdoUuid := bu } now
        = updateContractStore verify env keyFiles remoteFetch st uuid
            ru now) ∧
    ∃ saved,
      updateContractStore verify env keyFiles remoteFetch st uuid ru now
        = (.ok saved,
           ⟨setAssoc st.contracts c.uuid saved,
            setAssoc st.mapping c.uuid env.freshPubKey⟩) ∧
      saved.title = ru.title.getD c.title ∧
      saved.description = ru.description.getD c.description ∧
      saved.steps = ru.steps.getD c.steps ∧
      saved.status = ru.status.getD c.status ∧
      saved.updatedAt = now ∧
      saved.uuid = c.uuid ∧
      saved.creator = c.creator ∧
      saved.participants = c.participants ∧
      saved.createdAt = c.createdAt ∧
      saved.productUuid = c.productUuid ∧
      saved.bdoLocation = c.bdoLocation ∧
      saved.bdoUuid = c.bdoUuid ∧
      saved.svgContent = c.svgContent ∧
      saved.scgBdoUuid = c.scgBdoUuid ∧
      saved.pubKey = some env.freshPubKey := by
  constructor
  · intro ps cr bu
    rfl
  · have hh : updateContractHandler verify
        (loadContractFromBDO st keyFiles remoteFetch uuid) uuid ru now
        = .ok (applyUpdates c ru now) := by
      rw [hload]
      simp only [updateContractHandler, hauth]
      rw [if_pos hallowed, hvalid]
    have hsaved : saveContractToBDO env (applyUpdates c ru now)
        = { applyUpdates c ru now with pubKey := some env.freshPubKey } := by
      unfold saveContractToBDO
      rw [hdown]
    have huuid : (saveContractToBDO env (applyUpdates c ru now)).uuid
        = c.uuid := by
      rw [saveContractToBDO_uuid]
      rfl
    have hst : updateContractStore verify env keyFiles remoteFetch st uuid
        ru now
        = (.ok (saveContractToBDO env (applyUpdates c ru now)),
           ⟨setAssoc st.contracts c.uuid
              (saveContractToBDO env (applyUpdates c ru now)),
            setAssoc st.mapping c.uuid env.freshPubKey⟩) := by
      simp only [updateContractStore, hh, persistContract, huuid]
    refine ⟨saveContractToBDO env (applyUpdates c ru now), hst,
      ?_, ?_, ?_, ?_, ?_, ?_, ?_, ?_, ?_, ?_, ?_, ?_, ?_, ?_, ?_⟩ <;>
      (rw [hsaved]; try rfl)

/-- Witness for C7 (amended) at a concrete state. -/
theorem updateContract_frame_witness :
    loadContractFromBDO stC7 [] noRemote "c7" = some c7contract ∧
    validateContract (applyUpdates c7contract updTitleReq "77") = none ∧
    (∀ ps cr bu,
      updateContractStore verifyAll envLocal [] noRemote stC7 "c7"
          { updTitleReq with participants := ps, creator := cr, bdoUuid := bu } "77"
        = updateContractStore verifyAll envLocal [] noRemote stC7 "c7"
            updTitleReq "77") :=
  ⟨by decide, by decide,
    (updateContract_frame verifyAll envLocal [] noRemote stC7 "c7"
      updTitleReq "77" c7contract (by decide) (by decide) (by decide)
      (by decide) rfl).1⟩

def emptyState : ServerState := { contracts := [], mapping := [] }

/-- A save environment with remote down whose fresh keypair is `k2`. -/
def envK2 : SaveEnv :=
  { freshPubKey := "k2", createOutcome := none, scgOutcome := none,
    svgOf := fun _ => "svg" }

/-- C2: `saveContractToBDO` calls `sessionless.generateKeys` on *every*
invocation, so each persisted write restamps `contract.pubKey` and the
UUID-to-pubKey binding with a freshly minted key: after a create (mint
`k1`) followed by a title-only update (mint `k2`), the stored document
and binding carry `k2`, not the key fixed at first persistence. -/
theorem contract_pubKey_rotation_eval :
    (lookupAssoc ((createContractStore verifyAll envLocal emptyState
        createReqFix "cA" (fun _ => "sid") "10").2).contracts
        "cA").map Contract.pubKey = some (some "k1") ∧
    lookupAssoc ((createContractStore verifyAll envLocal emptyState
        createReqFix "cA" (fun _ => "sid") "10").2).mapping "cA"
      = some "k1" ∧
    (lookupAssoc (updateContractStore verifyAll envK2 [] noRemote
        ((createContractStore verifyAll envLocal emptyState createReqFix
          "cA" (fun _ => "sid") "10").2) "cA" updTitleReq
        "20").2.contracts "cA").map Contract.pubKey = some (some "k2") ∧
    lookupAssoc (updateContractStore verifyAll envK2 [] noRemote
        ((createContractStore verifyAll envLocal emptyState createReqFix
          "cA" (fun _ => "sid") "10").2) "cA" updTitleReq
        "20").2.mapping "cA" = some "k2" ∧
    (some (some "k2") : Option (Option String)) ≠ some (some "k1") := by
  decide

/-- A create handler success always yields a document with no remote
record id, the fresh UUID, and no pubKey yet (those are only added by
persistence). -/
theorem createContractHandler_ok_shape (verify : Verify)
    (rc : CreateRequest) (newUuid : String) (freshIds : Nat → String)
    (now : String) (c : Contract)
    (hok : createContractHandler verify rc newUuid freshIds now = .ok c) :
    c.bdoUuid = none ∧ c.uuid = newUuid ∧ c.pubKey = none := by
  unfold createContractHandler at hok
  split at hok
  · simp at hok
  · simp at hok
  · dsimp only at hok
    split at hok
    · simp at hok
    · injection hok with h
      subst h
      exact ⟨rfl, rfl, rfl⟩

/-- C9: when the remote object store is down (`bdo.createUser` throws),
a valid create still succeeds with HTTP 200; the document is saved
locally carrying the freshly minted public key and *no* remote record
id, and a subsequent read returns exactly that document from the local
fallback (for any remote behaviour, since there is no record id to
fetch). -/
theorem create_remoteDown_succeeds_locally (verify : Verify)
    (env : SaveEnv) (st : ServerState) (rc : CreateRequest)
    (newUuid : String) (freshIds : Nat → String) (now : String)
    (c : Contract)
    (hok : createContractHandler verify rc newUuid freshIds now = .ok c)
    (hdown : env.createOutcome = none)
    (keyFiles : List String)
    (remoteFetch : String → String → Option Contract) :
    ∃ saved,
      createContractStore verify env st rc newUuid freshIds now
        = (.ok saved,
           ⟨setAssoc st.contracts c.uuid saved,
            setAssoc st.mapping c.uuid env.freshPubKey⟩) ∧
      createResultStatus
        (createContractStore verify env st rc newUuid freshIds now).1
        = 200 ∧
      saved.pubKey = some env.freshPubKey ∧
      saved.bdoUuid = none ∧
      lookupAssoc
        (createContractStore verify env st rc newUuid freshIds now).2.contracts
        c.uuid = some saved ∧
      loadContractFromBDO
        (createContractStore verify env st rc newUuid freshIds now).2
        keyFiles remoteFetch c.uuid = some saved := by
  obtain ⟨hbdo, -, -⟩ :=
    createContractHandler_ok_shape verify rc newUuid freshIds now c hok
  have hsaved : saveContractToBDO env c
      = { c with pubKey := some env.freshPubKey } := by
    unfold saveContractToBDO
    rw [hdown]
  have huuid : (saveContractToBDO env c).uuid = c.uuid :=
    saveContractToBDO_uuid env c
  have hst : createContractStore verify env st rc newUuid freshIds now
      = (.ok (saveContractToBDO env c),
         ⟨setAssoc st.contracts c.uuid (saveContractToBDO env c),
          setAssoc st.mapping c.uuid env.freshPubKey⟩) := by
    simp only [createContractStore, hok, persistContract, huuid]
  have hlook : lookupAssoc
      (createContractStore verify env st rc newUuid freshIds now).2.contracts
      c.uuid = some (saveContractToBDO env c) := by
    rw [hst]
    exact lookupAssoc_setAssoc_self st.contracts c.uuid _
  have hsbdo : (saveContractToBDO env c).bdoUuid = none := by
    rw [hsaved]
    exact hbdo
  refine ⟨saveContractToBDO env c, hst, ?_, ?_, hsbdo, hlook, ?_⟩
  · rw [hst]
    rfl
  · rw [hsaved]
  · unfold loadContractFromBDO
    rw [hlook]
    simp [hsbdo]

/-- The document the create handler builds for `createReqFix`. -/
def createdFix : Contract :=
  { uuid := "cA", title := "t", description := "d",
    participants := ["pa", "pb"],
    steps := [{ id := "st1", description := "ship", magicSpell := none,
                order := 0, signatures := [("pa", none), ("pb", none)],
                completed := false, completedAt := none,
                createdAt := "10" }],
    productUuid := none, bdoLocation := none, createdAt := "10",
    updatedAt := "10", status := "active", creator := "pa",
    pubKey := none, bdoUuid := none, svgContent := none,
    scgBdoUuid := none }

/-- Witness for C9 at a concrete create with the remote down. -/
theorem create_remoteDown_succeeds_locally_witness :
    createContractHandler verifyAll createReqFix "cA" (fun _ => "sid") "10"
      = .ok createdFix ∧
    (∃ saved,
      createContractStore verifyAll envLocal emptyState createReqFix "cA"
          (fun _ => "sid") "10"
        = (.ok saved,
           ⟨setAssoc emptyState.contracts createdFix.uuid saved,
            setAssoc emptyState.mapping createdFix.uuid
              envLocal.freshPubKey⟩) ∧
      createResultStatus
        (createContractStore verifyAll envLocal emptyState createReqFix
          "cA" (fun _ => "sid") "10").1 = 200 ∧
      saved.pubKey = some envLocal.freshPubKey ∧
      saved.bdoUuid = none ∧
      lookupAssoc
        (createContractStore verifyAll envLocal emptyState createReqFix
          "cA" (fun _ => "sid") "10").2.contracts createdFix.uuid
        = some saved ∧
      loadContractFromBDO
        (createContractStore verifyAll envLocal emptyState createReqFix
          "cA" (fun _ => "sid") "10").2 [] noRemote createdFix.uuid
        = some saved) :=
  ⟨by decide,
    create_remoteDown_succeeds_locally verifyAll envLocal emptyState
      createReqFix "cA" (fun _ => "sid") "10" createdFix (by decide) rfl
      [] noRemote⟩
